import Mathlib

/-!
Verification development for the Survision device simulator
(`survision_simulator`): a shallow embedding of the message model
(`models.py`), the device state store (`data_store.py`), the protocol
dispatcher (`device_logic.py`) and the transport adapters
(`server/http_server.py`, `server/websocket_server.py`), together with
theorems settling the behavioural claims about locking, message decoding,
the bounded event log, the plate database, reboot, recognition simulation
and configuration handling.
-/

namespace SurvisionSim

/-- JSON values, as decoded from a request body.  Numbers are modelled as
integers (no claim depends on fractional values). -/
inductive Json where
  | null : Json
  | bool : Bool → Json
  | num : Int → Json
  | str : String → Json
  | arr : List Json → Json
  | obj : List (String × Json) → Json

/-- Lookup of a top-level key in a JSON object's key/value list. -/
def jLookup (kvs : List (String × Json)) (k : String) : Option Json :=
  match kvs with
  | [] => none
  | (k₁, v) :: rest => if k₁ = k then some v else jLookup rest k

/-- Lookup honouring pydantic `populate_by_name`: the alias is preferred,
the python field name is also accepted. -/
def jField (kvs : List (String × Json)) (aliasKey fieldName : String) : Option Json :=
  match jLookup kvs aliasKey with
  | some v => some v
  | none => jLookup kvs fieldName

/-- Payload of a `lock` message (`LockPassword` in `models.py`). -/
structure LockPassword where
  password : String
deriving DecidableEq, Repr

/-- Payload of a plate reference (`PlateModel` in `models.py`). -/
structure PlateModel where
  value : String
deriving DecidableEq, Repr

/-- The discriminated payload of `editDatabase`
(`Union[AddPlateModel, DelPlateModel]` in `models.py`). -/
inductive EditDatabasePayload where
  | addPlate : PlateModel → EditDatabasePayload
  | delPlate : PlateModel → EditDatabasePayload
deriving DecidableEq, Repr

/-- Per-camera stream flag (`CameraStreamConfig` in `models.py`). -/
structure CameraStreamConfig where
  id : String
  enabled : Bool
deriving DecidableEq, Repr

/-- Per-connection subscription record (`StreamConfig` in `models.py`). -/
structure StreamConfig where
  configChanges : Bool
  infoChanges : Bool
  traces : Bool
  cameras : List (String × CameraStreamConfig)
deriving DecidableEq, Repr

/-- Security settings payload (`SecurityConfig` in `models.py`); only the
fields the dispatcher reads are retained, the remaining optional fields
participate in validation only. -/
structure SecurityConfig where
  newLockPassword : Option String
  currentLockPassword : Option String
  lockPasswordHint : Option String
  rsaHint : Option String
deriving DecidableEq, Repr

/-- FTP test payload (`TestFTPConfig` in `models.py`). -/
structure TestFTPConfig where
  address : String
deriving DecidableEq, Repr

/-- NTP test payload (`TestNTPConfig` in `models.py`). -/
structure TestNTPConfig where
  host : String
deriving DecidableEq, Repr

/-- Firmware update payload (`UpdateWebFirmwareConfig` in `models.py`). -/
structure UpdateWebFirmwareConfig where
  url : String
deriving DecidableEq, Repr

/-- The decoded message variants (`MessageType` in `models.py`), in union
declaration order.  Loosely-typed `Dict[str, Any]` payloads are carried as
raw JSON key/value lists. -/
inductive Msg where
  | getConfig
  | getCurrentLog (payload : Option (List (String × Json)))
  | getDatabase
  | getDate
  | getImage (payload : Option (List (String × Json)))
  | getInfos
  | getLog (payload : Option (List (String × Json)))
  | getTraces
  | getXSD
  | openBarrier
  | triggerOn (payload : List (String × Json))
  | triggerOff (payload : List (String × Json))
  | lock (lp : LockPassword)
  | unlock
  | resetConfig
  | resetEngine
  | setConfig (payload : List (String × Json))
  | editDatabase (p : EditDatabasePayload)
  | resetCounters
  | allowSetConfig (payload : Option (List (String × Json)))
  | forbidSetConfig (payload : Option (List (String × Json)))
  | calibrateZoomFocus (payload : Option (List (String × Json)))
  | setEnableStreams (cfg : StreamConfig)
  | keepAlive
  | update (payload : List (String × Json))
  | setup (payload : List (String × Json))
  | setSecurity (cfg : SecurityConfig)
  | testFTP (cfg : TestFTPConfig)
  | testNTP (cfg : TestNTPConfig)
  | updateWebFirmware (cfg : UpdateWebFirmwareConfig)
  | eraseDatabase
  | reboot

/-- Static classification `requires_locking` (`models.py`): exactly the
subclasses of `LockedOperationMessage`. -/
def Msg.requiresLocking : Msg → Bool
  | .resetConfig => true
  | .setConfig _ => true
  | .editDatabase _ => true
  | .allowSetConfig _ => true
  | .forbidSetConfig _ => true
  | .calibrateZoomFocus _ => true
  | .setSecurity _ => true
  | .eraseDatabase => true
  | .reboot => true
  | _ => false

/-- Static classification `is_prohibited_over_http` (`models.py`): exactly
the subclasses of `ProhibitedOverHTTPMessage`. -/
def Msg.prohibitedOverHTTP : Msg → Bool
  | .lock _ => true
  | .keepAlive => true
  | .update _ => true
  | .setup _ => true
  | _ => false

/-- Validation of a field whose annotation is `None` with default `None`
(e.g. `get_config`): the key may be absent, or present with a null value. -/
def vNullDefault (v : Option Json) : Bool :=
  match v with
  | none => true
  | some .null => true
  | some _ => false

/-- Validation of an `Optional[Dict[str, Any]]` field with default `None`. -/
def vOptObj (v : Option Json) : Option (Option (List (String × Json))) :=
  match v with
  | none => some none
  | some .null => some none
  | some (.obj kvs) => some (some kvs)
  | some _ => none

/-- Validation of a required `Dict[str, Any]` field guarded by a
`mode="before"` validator mapping `null` to `{}` (as on `triggerOn`,
`triggerOff` and `setConfig`). -/
def vReqObjCoerce (v : Option Json) : Option (List (String × Json)) :=
  match v with
  | some .null => some []
  | some (.obj kvs) => some kvs
  | _ => none

/-- Validation of a required `Dict[str, Any]` field without coercion. -/
def vReqObj (v : Option Json) : Option (List (String × Json)) :=
  match v with
  | some (.obj kvs) => some kvs
  | _ => none

/-- A required `str` field accepts exactly JSON strings. -/
def vStr : Json → Option String
  | .str s => some s
  | _ => none

/-- An `Optional[str]` field: absent or null gives `None`, a string gives
the string, anything else fails the variant. -/
def vOptStrField (v : Option Json) : Option (Option String) :=
  match v with
  | none => some none
  | some .null => some none
  | some (.str s) => some (some s)
  | some _ => none

/-- Lax boolean validation for a plain `bool` field (pydantic accepts
booleans, the usual boolean-like strings and 0/1 numbers). -/
def vBoolLax : Json → Option Bool
  | .bool b => some b
  | .str s =>
      if s = "1" ∨ s = "true" ∨ s = "True" ∨ s = "yes" ∨ s = "on" then some true
      else if s = "0" ∨ s = "false" ∨ s = "False" ∨ s = "no" ∨ s = "off" then some false
      else none
  | .num n => if n = 0 then some false else if n = 1 then some true else none
  | _ => none

/-- The `parse_bool` before-validator of `StreamConfig` (`models.py`):
a string compares against `"1"`, every other value goes through python
`bool(...)` truthiness, so this field accepts any JSON value. -/
def boolAny : Json → Bool
  | .str s => s = "1"
  | .bool b => b
  | .num n => n ≠ 0
  | .null => false
  | .arr l => !l.isEmpty
  | .obj l => !l.isEmpty

/-- Lax integer validation: integers, integral strings and booleans. -/
def vIntLax : Json → Option Int
  | .num n => some n
  | .str s => s.toInt?
  | .bool b => some (if b then 1 else 0)
  | _ => none

/-- An `Optional[int]` field. -/
def vOptIntField (v : Option Json) : Option (Option Int) :=
  match v with
  | none => some none
  | some .null => some none
  | some j => (vIntLax j).map some

/-- Validation of one `CameraStreamConfig` entry (`@id` and `@enabled`
required). -/
def tryCameraStream (j : Json) : Option CameraStreamConfig :=
  match j with
  | .obj ckvs => do
      let i ← (jLookup ckvs "@id").bind vStr
      let en ← (jLookup ckvs "@enabled").bind vBoolLax
      pure { id := i, enabled := en }
  | _ => none

/-- Validation of a `StreamConfig` payload (`models.py`): the three flag
fields have defaults and accept any value through `parse_bool`, the
`cameras` table must be an object of valid camera entries when present. -/
def tryStreamConfig (j : Json) : Option StreamConfig :=
  match j with
  | .obj skvs =>
      let cc := match jField skvs "@configChanges" "config_changes" with
        | none => false
        | some v => boolAny v
      let ic := match jField skvs "@infoChanges" "info_changes" with
        | none => false
        | some v => boolAny v
      let tr := match jField skvs "@traces" "traces" with
        | none => false
        | some v => boolAny v
      match jLookup skvs "cameras" with
      | none => some { configChanges := cc, infoChanges := ic, traces := tr, cameras := [] }
      | some (.obj cams) =>
          (cams.mapM (fun kv => (tryCameraStream kv.2).map (fun c => (kv.1, c)))).map
            (fun cs => { configChanges := cc, infoChanges := ic, traces := tr, cameras := cs })
      | some _ => none
  | _ => none

/-- Validation of the nested `IEEE8021X` object of `SecurityConfig`
(`@authentication` required, the rest optional strings). -/
def vIEEE8021X (v : Option Json) : Option Unit :=
  match v with
  | none => some ()
  | some .null => some ()
  | some (.obj ik) => do
      let _ ← (jField ik "@authentication" "authentication").bind vStr
      let _ ← vOptStrField (jField ik "@certificatePassword" "certificate_password")
      let _ ← vOptStrField (jField ik "@identity" "identity")
      let _ ← vOptStrField (jField ik "PFX" "pfx")
      let _ ← vOptStrField (jField ik "certificate" "certificate")
      let _ ← vOptStrField (jField ik "privateKey" "private_key")
      let _ ← vOptStrField (jField ik "certificateAuthority" "certificate_authority")
      pure ()
  | some _ => none

/-- Validation of a `SecurityConfig` payload (`models.py`); the fields not
retained in the structure still constrain validity
(`@sslCertificateReset` accepts anything through its before-validator). -/
def trySecurityConfig (sk : List (String × Json)) : Option SecurityConfig := do
  let nlp ← vOptStrField (jField sk "@newLockPassword" "new_lock_password")
  let clp ← vOptStrField (jField sk "@currentLockPassword" "current_lock_password")
  let lph ← vOptStrField (jField sk "@lockPasswordHint" "lock_password_hint")
  let rh ← vOptStrField (jField sk "@rsaHint" "rsa_hint")
  let _ ← vOptStrField (jField sk "@rsaPublicKeyPassword" "rsa_public_key_password")
  let _ ← vOptStrField (jField sk "@sslCertificatePassword" "ssl_certificate_password")
  let _ ← vOptStrField (jField sk "sslPFX" "ssl_pfx")
  let _ ← vOptStrField (jField sk "sslCertificate" "ssl_certificate")
  let _ ← vOptStrField (jField sk "sslPrivateKey" "ssl_private_key")
  let _ ← vOptStrField (jField sk "sslCertificateAuthority" "ssl_certificate_authority")
  let _ ← vOptStrField (jField sk "rsaPublicKey" "rsa_public_key")
  let _ ← vIEEE8021X (jField sk "IEEE8021X" "ieee8021x")
  pure { newLockPassword := nlp, currentLockPassword := clp,
         lockPasswordHint := lph, rsaHint := rh }

/-- Validation of `GetConfigMessage`. -/
def tryGetConfig (kvs : List (String × Json)) : Option Msg :=
  if vNullDefault (jLookup kvs "getConfig") then some .getConfig else none

/-- Validation of `GetCurrentLogMessage`. -/
def tryGetCurrentLog (kvs : List (String × Json)) : Option Msg :=
  (vOptObj (jLookup kvs "getCurrentLog")).map Msg.getCurrentLog

/-- Validation of `GetDataBaseModel`. -/
def tryGetDatabase (kvs : List (String × Json)) : Option Msg :=
  if vNullDefault (jLookup kvs "getDatabase") then some .getDatabase else none

/-- Validation of `GetDateMessage`. -/
def tryGetDate (kvs : List (String × Json)) : Option Msg :=
  if vNullDefault (jLookup kvs "getDate") then some .getDate else none

/-- Validation of `GetImageMessage`. -/
def tryGetImage (kvs : List (String × Json)) : Option Msg :=
  (vOptObj (jLookup kvs "getImage")).map Msg.getImage

/-- Validation of `GetInfosMessage`. -/
def tryGetInfos (kvs : List (String × Json)) : Option Msg :=
  if vNullDefault (jLookup kvs "getInfos") then some .getInfos else none

/-- Validation of `GetLogMessage`. -/
def tryGetLog (kvs : List (String × Json)) : Option Msg :=
  (vOptObj (jLookup kvs "getLog")).map Msg.getLog

/-- Validation of `GetTracesMessage`. -/
def tryGetTraces (kvs : List (String × Json)) : Option Msg :=
  if vNullDefault (jLookup kvs "getTraces") then some .getTraces else none

/-- Validation of `GetXSDMessage`. -/
def tryGetXSD (kvs : List (String × Json)) : Option Msg :=
  if vNullDefault (jLookup kvs "getXSD") then some .getXSD else none

/-- Validation of `OpenBarrierMessage`. -/
def tryOpenBarrier (kvs : List (String × Json)) : Option Msg :=
  if vNullDefault (jLookup kvs "openBarrier") then some .openBarrier else none

/-- Validation of `TriggerOnMessage` (required payload, null coerced to
an empty object by the before-validator). -/
def tryTriggerOn (kvs : List (String × Json)) : Option Msg :=
  (vReqObjCoerce (jLookup kvs "triggerOn")).map Msg.triggerOn

/-- Validation of `TriggerOffMessage`. -/
def tryTriggerOff (kvs : List (String × Json)) : Option Msg :=
  (vReqObjCoerce (jLookup kvs "triggerOff")).map Msg.triggerOff

/-- Validation of `LockMessage` (`lock` is a plain field name; the nested
`LockPassword` has `populate_by_name`). -/
def tryLock (kvs : List (String × Json)) : Option Msg :=
  match jLookup kvs "lock" with
  | some (.obj lk) =>
      ((jField lk "@password" "password").bind vStr).map (fun p => .lock { password := p })
  | _ => none

/-- Validation of `UnlockMessage`. -/
def tryUnlock (kvs : List (String × Json)) : Option Msg :=
  if vNullDefault (jLookup kvs "unlock") then some .unlock else none

/-- Validation of `ResetConfigMessage`. -/
def tryResetConfig (kvs : List (String × Json)) : Option Msg :=
  if vNullDefault (jLookup kvs "resetConfig") then some .resetConfig else none

/-- Validation of `ResetEngineMessage`. -/
def tryResetEngine (kvs : List (String × Json)) : Option Msg :=
  if vNullDefault (jLookup kvs "resetEngine") then some .resetEngine else none

/-- Validation of `SetConfigMessage`. -/
def trySetConfig (kvs : List (String × Json)) : Option Msg :=
  (vReqObjCoerce (jLookup kvs "setConfig")).map Msg.setConfig

/-- Validation of the `addPlate` arm of `editDatabase` (`AddPlateModel`;
`PlateModel.value` only accepts the `@value` alias). -/
def tryAddPlate (ed : List (String × Json)) : Option EditDatabasePayload :=
  match jLookup ed "addPlate" with
  | some (.obj pm) =>
      ((jLookup pm "@value").bind vStr).map (fun s => .addPlate { value := s })
  | _ => none

/-- Validation of the `delPlate` arm of `editDatabase` (`DelPlateModel`). -/
def tryDelPlate (ed : List (String × Json)) : Option EditDatabasePayload :=
  match jLookup ed "delPlate" with
  | some (.obj pm) =>
      ((jLookup pm "@value").bind vStr).map (fun s => .delPlate { value := s })
  | _ => none

/-- Validation of `EditDatabaseMessage` (inner smart union tries the
add-plate form first). -/
def tryEditDatabase (kvs : List (String × Json)) : Option Msg :=
  match jLookup kvs "editDatabase" with
  | some (.obj ed) =>
      (match tryAddPlate ed with
       | some p => some p
       | none => tryDelPlate ed).map Msg.editDatabase
  | _ => none

/-- Validation of `ResetCountersMessage`. -/
def tryResetCounters (kvs : List (String × Json)) : Option Msg :=
  if vNullDefault (jLookup kvs "resetCounters") then some .resetCounters else none

/-- Validation of `AllowSetConfigMessage`. -/
def tryAllowSetConfig (kvs : List (String × Json)) : Option Msg :=
  (vOptObj (jLookup kvs "allowSetConfig")).map Msg.allowSetConfig

/-- Validation of `ForbidSetConfigMessage`. -/
def tryForbidSetConfig (kvs : List (String × Json)) : Option Msg :=
  (vOptObj (jLookup kvs "forbidSetConfig")).map Msg.forbidSetConfig

/-- Validation of `CalibrateZoomFocusMessage`. -/
def tryCalibrateZoomFocus (kvs : List (String × Json)) : Option Msg :=
  (vOptObj (jLookup kvs "calibrateZoomFocus")).map Msg.calibrateZoomFocus

/-- Validation of `SetEnableStreamsRequest`. -/
def trySetEnableStreams (kvs : List (String × Json)) : Option Msg :=
  match jLookup kvs "setEnableStreams" with
  | some v => (tryStreamConfig v).map Msg.setEnableStreams
  | none => none

/-- Validation of `KeepAliveMessage`. -/
def tryKeepAlive (kvs : List (String × Json)) : Option Msg :=
  if vNullDefault (jLookup kvs "keepAlive") then some .keepAlive else none

/-- Validation of `UpdateMessage` (required object payload). -/
def tryUpdate (kvs : List (String × Json)) : Option Msg :=
  (vReqObj (jLookup kvs "update")).map Msg.update

/-- Validation of `SetupMessage`. -/
def trySetup (kvs : List (String × Json)) : Option Msg :=
  (vReqObj (jLookup kvs "setup")).map Msg.setup

/-- Validation of `SetSecurityMessage`. -/
def trySetSecurity (kvs : List (String × Json)) : Option Msg :=
  match jLookup kvs "setSecurity" with
  | some (.obj sk) => (trySecurityConfig sk).map Msg.setSecurity
  | _ => none

/-- Validation of `TestFTPMessage`. -/
def tryTestFTP (kvs : List (String × Json)) : Option Msg :=
  match jLookup kvs "testFTP" with
  | some (.obj fk) => do
      let addr ← (jField fk "@address" "address").bind vStr
      let _ ← vOptIntField (jField fk "@port" "port")
      let _ ← vOptStrField (jField fk "@login" "login")
      let _ ← vOptStrField (jField fk "@password" "password")
      let _ ← vOptStrField (jField fk "@protocol" "protocol")
      let _ ← vOptStrField (jField fk "@fileName" "file_name")
      pure (Msg.testFTP { address := addr })
  | _ => none

/-- Validation of `TestNTPMessage`. -/
def tryTestNTP (kvs : List (String × Json)) : Option Msg :=
  match jLookup kvs "testNTP" with
  | some (.obj nk) =>
      ((jField nk "@host" "host").bind vStr).map (fun h => .testNTP { host := h })
  | _ => none

/-- Validation of `UpdateWebFirmwareMessage`. -/
def tryUpdateWebFirmware (kvs : List (String × Json)) : Option Msg :=
  match jLookup kvs "updateWebFirmware" with
  | some (.obj uk) =>
      ((jField uk "@url" "url").bind vStr).map (fun u => .updateWebFirmware { url := u })
  | _ => none

/-- Validation of `EraseDatabaseMessage`. -/
def tryEraseDatabase (kvs : List (String × Json)) : Option Msg :=
  if vNullDefault (jLookup kvs "eraseDatabase") then some .eraseDatabase else none

/-- Validation of `RebootMessage`. -/
def tryReboot (kvs : List (String × Json)) : Option Msg :=
  if vNullDefault (jLookup kvs "reboot") then some .reboot else none

/-- Guard keeping a variant only when its own top-level key is present in
the object (a set field in pydantic terms). -/
def ifPresent (kvs : List (String × Json)) (k : String) (r : Option Msg) : Option Msg :=
  if (jLookup kvs k).isSome then r else none

/-- Guard keeping a variant only when its own top-level key is absent. -/
def ifAbsent (kvs : List (String × Json)) (k : String) (r : Option Msg) : Option Msg :=
  if (jLookup kvs k).isSome then none else r

/-- First success in a list of candidate validations. -/
def firstValid (cands : List (Option Msg)) : Option Msg :=
  match cands with
  | [] => none
  | c :: rest =>
    match c with
    | some m => some m
    | none => firstValid rest

/-- First pass of the smart union of `MessageType` (`models.py`): among
variants that validate, those whose own key was supplied win (pydantic
prefers the union member with more fields set), leftmost first in union
declaration order. -/
def passPresent (kvs : List (String × Json)) : Option Msg :=
  firstValid
    [ifPresent kvs "getConfig" (tryGetConfig kvs),
     ifPresent kvs "getCurrentLog" (tryGetCurrentLog kvs),
     ifPresent kvs "getDatabase" (tryGetDatabase kvs),
     ifPresent kvs "getDate" (tryGetDate kvs),
     ifPresent kvs "getImage" (tryGetImage kvs),
     ifPresent kvs "getInfos" (tryGetInfos kvs),
     ifPresent kvs "getLog" (tryGetLog kvs),
     ifPresent kvs "getTraces" (tryGetTraces kvs),
     ifPresent kvs "getXSD" (tryGetXSD kvs),
     ifPresent kvs "openBarrier" (tryOpenBarrier kvs),
     ifPresent kvs "triggerOn" (tryTriggerOn kvs),
     ifPresent kvs "triggerOff" (tryTriggerOff kvs),
     ifPresent kvs "lock" (tryLock kvs),
     ifPresent kvs "unlock" (tryUnlock kvs),
     ifPresent kvs "resetConfig" (tryResetConfig kvs),
     ifPresent kvs "resetEngine" (tryResetEngine kvs),
     ifPresent kvs "setConfig" (trySetConfig kvs),
     ifPresent kvs "editDatabase" (tryEditDatabase kvs),
     ifPresent kvs "resetCounters" (tryResetCounters kvs),
     ifPresent kvs "allowSetConfig" (tryAllowSetConfig kvs),
     ifPresent kvs "forbidSetConfig" (tryForbidSetConfig kvs),
     ifPresent kvs "calibrateZoomFocus" (tryCalibrateZoomFocus kvs),
     ifPresent kvs "setEnableStreams" (trySetEnableStreams kvs),
     ifPresent kvs "keepAlive" (tryKeepAlive kvs),
     ifPresent kvs "update" (tryUpdate kvs),
     ifPresent kvs "setup" (trySetup kvs),
     ifPresent kvs "setSecurity" (trySetSecurity kvs),
     ifPresent kvs "testFTP" (tryTestFTP kvs),
     ifPresent kvs "testNTP" (tryTestNTP kvs),
     ifPresent kvs "updateWebFirmware" (tryUpdateWebFirmware kvs),
     ifPresent kvs "eraseDatabase" (tryEraseDatabase kvs),
     ifPresent kvs "reboot" (tryReboot kvs)]

/-- Second pass: validating variants whose key was not supplied (all their
fields defaulted), leftmost first. -/
def passAbsent (kvs : List (String × Json)) : Option Msg :=
  firstValid
    [ifAbsent kvs "getConfig" (tryGetConfig kvs),
     ifAbsent kvs "getCurrentLog" (tryGetCurrentLog kvs),
     ifAbsent kvs "getDatabase" (tryGetDatabase kvs),
     ifAbsent kvs "getDate" (tryGetDate kvs),
     ifAbsent kvs "getImage" (tryGetImage kvs),
     ifAbsent kvs "getInfos" (tryGetInfos kvs),
     ifAbsent kvs "getLog" (tryGetLog kvs),
     ifAbsent kvs "getTraces" (tryGetTraces kvs),
     ifAbsent kvs "getXSD" (tryGetXSD kvs),
     ifAbsent kvs "openBarrier" (tryOpenBarrier kvs),
     ifAbsent kvs "unlock" (tryUnlock kvs),
     ifAbsent kvs "resetConfig" (tryResetConfig kvs),
     ifAbsent kvs "resetEngine" (tryResetEngine kvs),
     ifAbsent kvs "resetCounters" (tryResetCounters kvs),
     ifAbsent kvs "allowSetConfig" (tryAllowSetConfig kvs),
     ifAbsent kvs "forbidSetConfig" (tryForbidSetConfig kvs),
     ifAbsent kvs "calibrateZoomFocus" (tryCalibrateZoomFocus kvs),
     ifAbsent kvs "keepAlive" (tryKeepAlive kvs),
     ifAbsent kvs "eraseDatabase" (tryEraseDatabase kvs),
     ifAbsent kvs "reboot" (tryReboot kvs)]

/-- Embedding of `parse_message` (`models.py`): validate the body against
the `MessageType` tagged union; `none` is the raised
ValidationError/ValueError.  Only JSON objects can match a model. -/
def parseMessage (j : Json) : Option Msg :=
  match j with
  | .obj kvs =>
    match passPresent kvs with
    | some m => some m
    | none => passAbsent kvs
  | _ => none

/-- The recognized top-level keys of the protocol, one per variant. -/
def messageKeys : List String :=
  ["getConfig", "getCurrentLog", "getDatabase", "getDate", "getImage",
   "getInfos", "getLog", "getTraces", "getXSD", "openBarrier", "triggerOn",
   "triggerOff", "lock", "unlock", "resetConfig", "resetEngine", "setConfig",
   "editDatabase", "resetCounters", "allowSetConfig", "forbidSetConfig",
   "calibrateZoomFocus", "setEnableStreams", "keepAlive", "update", "setup",
   "setSecurity", "testFTP", "testNTP", "updateWebFirmware", "eraseDatabase",
   "reboot"]

/-- Number of recognized top-level keys carried by a JSON object. -/
def recognizedKeyCount (kvs : List (String × Json)) : Nat :=
  (kvs.filter (fun kv => messageKeys.contains kv.1)).length

/-- Database match of a recognition decision (`DatabaseMatch` in
`models.py`). -/
structure DatabaseMatch where
  plate : String
  distance : Option Int
deriving DecidableEq, Repr

/-- Per-character reliability entry (`CharacterReliability` in
`models.py`). -/
structure CharacterReliability where
  index : Int
  reliability : Int
deriving DecidableEq, Repr

/-- A recognition decision (`RecognitionDecision` in `models.py`); the
fields the simulator populates are retained. -/
structure RecognitionDecision where
  plate : Option String
  reliability : Option Int
  context : Option String
  jpeg : Option String
  reliabilityPerCharacter : Option (List CharacterReliability)
  database : Option DatabaseMatch
deriving DecidableEq, Repr

/-- A recognition event (`RecognitionEvent` in `models.py`); the datetime
is carried as a logical timestamp. -/
structure RecognitionEvent where
  date : Int
  id : Int
  session : Int
  decision : RecognitionDecision
deriving DecidableEq, Repr

/-- ANPR wrapper (`AnprEvent` in `models.py`). -/
structure AnprEvent where
  anpr : RecognitionEvent
deriving DecidableEq, Repr

/-- Entries of the bounded event log (`Event` in `data_store.py`): barrier,
database, recognition, security and reboot events. -/
inductive Event where
  | barrier (action : String) (timestamp : Int)
  | database (action : String) (plate : Option String) (timestamp : Int)
  | recognition (ev : RecognitionEvent)
  | security (action : String) (timestamp : Int)
  | reboot (timestamp : Int)
deriving DecidableEq, Repr

/-- Embedding of `DataStore._add_event_log` (`data_store.py`): append, then
trim to the most recent `_max_log_size = 100` entries. -/
def addEventLog (log : List Event) (e : Event) : List Event :=
  let log₁ := log ++ [e]
  if log₁.length > 100 then log₁.drop (log₁.length - 100) else log₁

/-- The mutable device state held by `DataStore` (`data_store.py`).
The per-connection subscription table is keyed by a client identifier. -/
structure DataStore where
  isLocked : Bool
  barrierOpen : Bool
  allowSetConfig : Bool
  lockPassword : Option String
  lockPasswordHint : Option String
  rsaHint : Option String
  platesDatabase : List String
  currentRecognition : Option AnprEvent
  eventLog : List Event
  streamConfig : Option StreamConfig
  simulatedDate : Int
deriving DecidableEq, Repr

/-- The fresh store of `DataStore.__init__` (the startup wall-clock
milliseconds are a parameter). -/
def DataStore.init (d : Int) : DataStore where
  isLocked := false
  barrierOpen := false
  allowSetConfig := true
  lockPassword := none
  lockPasswordHint := none
  rsaHint := none
  platesDatabase := []
  currentRecognition := none
  eventLog := []
  streamConfig := none
  simulatedDate := d

/-- Embedding of `DataStore.lock_device`: with a stored lock password the
supplied one must equal it, otherwise the state is untouched and the call
fails; on success the device is (idempotently) locked. -/
def DataStore.lockDevice (s : DataStore) (password : Option String) : DataStore × Bool :=
  match s.lockPassword with
  | some stored =>
      if password = some stored then ({ s with isLocked := true }, true)
      else (s, false)
  | none => ({ s with isLocked := true }, true)

/-- Embedding of `DataStore.unlock_device`: unconditional. -/
def DataStore.unlockDevice (s : DataStore) : DataStore × Bool :=
  ({ s with isLocked := false }, true)

/-- Embedding of `DataStore.set_lock_password`. -/
def DataStore.setLockPassword (s : DataStore) (password : String) : DataStore :=
  { s with lockPassword := some password,
           eventLog := addEventLog s.eventLog (.security "password_change" s.simulatedDate) }

/-- Embedding of `DataStore.set_lock_password_hint` (no log entry). -/
def DataStore.setLockPasswordHint (s : DataStore) (hint : String) : DataStore :=
  { s with lockPasswordHint := some hint }

/-- Embedding of `DataStore.set_rsa_hint`. -/
def DataStore.setRsaHint (s : DataStore) (hint : String) : DataStore :=
  { s with rsaHint := some hint,
           eventLog := addEventLog s.eventLog (.security "rsa_change" s.simulatedDate) }

/-- Embedding of `DataStore.open_barrier`. -/
def DataStore.openBarrier (s : DataStore) : DataStore × Bool :=
  ({ s with barrierOpen := true,
            eventLog := addEventLog s.eventLog (.barrier "open" s.simulatedDate) }, true)

/-- Embedding of `DataStore.close_barrier`. -/
def DataStore.closeBarrier (s : DataStore) : DataStore × Bool :=
  ({ s with barrierOpen := false,
            eventLog := addEventLog s.eventLog (.barrier "close" s.simulatedDate) }, true)

/-- Embedding of `DataStore.set_allow_config`. -/
def DataStore.setAllowConfig (s : DataStore) (allow : Bool) : DataStore :=
  { s with allowSetConfig := allow }

/-- Embedding of `DataStore.add_plate_to_database`: a set insert followed
unconditionally by a Database(add) log entry; always succeeds. -/
def DataStore.addPlateToDatabase (s : DataStore) (plate : String) : DataStore × Bool :=
  ({ s with platesDatabase := s.platesDatabase.insert plate,
            eventLog := addEventLog s.eventLog (.database "add" (some plate) s.simulatedDate) },
   true)

/-- Embedding of `DataStore.remove_plate_from_database`: removing an absent
plate mutates nothing and fails; removing a present plate also logs. -/
def DataStore.removePlateFromDatabase (s : DataStore) (plate : String) : DataStore × Bool :=
  if plate ∈ s.platesDatabase then
    ({ s with platesDatabase := s.platesDatabase.erase plate,
              eventLog := addEventLog s.eventLog (.database "remove" (some plate) s.simulatedDate) },
     true)
  else (s, false)

/-- Embedding of `DataStore.clear_database`. -/
def DataStore.clearDatabase (s : DataStore) : DataStore × Bool :=
  ({ s with platesDatabase := [],
            eventLog := addEventLog s.eventLog (.database "clear" none s.simulatedDate) }, true)

/-- Embedding of `DataStore.set_current_recognition`: replaces the current
event and logs the recognition. -/
def DataStore.setCurrentRecognition (s : DataStore) (r : AnprEvent) : DataStore :=
  { s with currentRecognition := some r,
           eventLog := addEventLog s.eventLog (.recognition r.anpr) }

/-- Embedding of `DataStore.simulate_reboot`: clears the lock, the barrier
flag and the current recognition, logs a Reboot entry and preserves the
configuration flags, the passwords/hints and the plate database. -/
def DataStore.simulateReboot (s : DataStore) : DataStore :=
  { s with isLocked := false,
           barrierOpen := false,
           currentRecognition := none,
           eventLog := addEventLog s.eventLog (.reboot s.simulatedDate) }

/-- The persisted key/value configuration (`ConfigManager`,
`config_manager.py`), restricted to the keys the dispatcher reads; file
I/O is an external collaborator and is not modelled. -/
structure ConfigManager where
  ipAddress : String
  httpPort : Int
  wsPort : Int
  recognitionSuccessRate : Int
  defaultContext : String
  plateReliability : Int
deriving DecidableEq, Repr

/-- `ConfigManager.DEFAULT_CONFIG`. -/
def ConfigManager.default : ConfigManager where
  ipAddress := "127.0.0.1"
  httpPort := 8080
  wsPort := 10001
  recognitionSuccessRate := 75
  defaultContext := "F"
  plateReliability := 80

/-- One open trigger session (`DeviceLogic.active_triggers` values); the
camera id is stored as the raw JSON value taken from the payload. -/
structure TriggerSession where
  cameraId : Json
  timeout : Int
  startTime : Int

/-- The full simulator state handled by `DeviceLogic`: configuration,
device store and the open trigger sessions (insertion-ordered, keyed by
trigger id). -/
structure SimState where
  config : ConfigManager
  store : DataStore
  activeTriggers : List (Int × TriggerSession)

/-- The fresh simulator state at startup. -/
def SimState.init (d : Int) : SimState where
  config := ConfigManager.default
  store := DataStore.init d
  activeTriggers := []

/-- The protocol answers the dispatcher produces (`AnswerType` in
`models.py`); constant serialization-only payloads are reduced to the
state-dependent data they carry. -/
inductive Answer where
  | success
  | failed (errorText : String)
  | configAnswer (config : Json)
  | databaseAnswer (plates : List String)
  | dateAnswer (date : Int)
  | imageAnswer (date : Int) (jpeg : String)
  | infosAnswer (locked : Bool)
  | logAnswer (anpr : RecognitionEvent)
  | tracesAnswer
  | xsdAnswer (xsd : String)
  | triggerOk (id : Int)
  | triggerFailed (id : Int)

mutual
/-- Structural equality of JSON values (python `==` on decoded data). -/
def Json.beq : Json → Json → Bool
  | .null, .null => true
  | .bool a, .bool b => a == b
  | .num a, .num b => a == b
  | .str a, .str b => a == b
  | .arr a, .arr b => Json.beqList a b
  | .obj a, .obj b => Json.beqObj a b
  | _, _ => false
def Json.beqList : List Json → List Json → Bool
  | [], [] => true
  | x :: xs, y :: ys => Json.beq x y && Json.beqList xs ys
  | _, _ => false
def Json.beqObj : List (String × Json) → List (String × Json) → Bool
  | [], [] => true
  | (k₁, x) :: xs, (k₂, y) :: ys => k₁ == k₂ && Json.beq x y && Json.beqObj xs ys
  | _, _ => false
end

/-- The hard-coded sample JPEG of `DeviceLogic.__init__`. -/
def sampleImage : String :=
  "iVBORw0KGgoAAAANSUhEUgAAAAEAAAABCAYAAAAfFcSJAAAADUlEQVR42mP8z8BQDwAEhQGAhKmMIQAAAABJRU5ErkJggg=="

/-- The XSD content served by `_handle_get_xsd` (its base64 transport
encoding is treated as external serialization). -/
def xsdContent : String :=
  "<?xml version=\"1.0\" encoding=\"UTF-8\"?><xs:schema xmlns:xs=\"http://www.w3.org/2001/XMLSchema\"></xs:schema>"

/-- The random and wall-clock draws a single message processing step may
consume, made explicit: `draw` is `random.randint(1, 100)`, `plateChoice`
is the `random.choice` plate, `now` the `datetime.now()` stamp,
`triggerId` is `random.randint(1, 10000)` and `wallTime` is
`time.time()`. -/
structure Oracle where
  draw : Int
  plateChoice : String
  now : Int
  triggerId : Int
  wallTime : Int

/-- Embedding of `DeviceLogic.generate_recognition_event`: builds the
decision from the configured reliability and context, attaches a database
match with distance 0 exactly when the plate is in the plate database, and
stores the event as current. -/
def generateRecognitionEvent (o : Oracle) (plate? : Option String) (st : SimState) :
    AnprEvent × SimState :=
  let plate := plate?.getD o.plateChoice
  let reliability := st.config.plateReliability
  let ev : AnprEvent :=
    { anpr :=
      { date := o.now, id := 0, session := 0,
        decision :=
        { plate := some plate,
          reliability := some reliability,
          context := some st.config.defaultContext,
          jpeg := some sampleImage,
          reliabilityPerCharacter :=
            some ((List.range plate.length).map
              (fun i => { index := Int.ofNat i, reliability := reliability })),
          database :=
            if plate ∈ st.store.platesDatabase then
              some { plate := plate, distance := some 0 }
            else none } } }
  (ev, { st with store := st.store.setCurrentRecognition ev })

/-- Embedding of `DeviceLogic.should_recognize_plate`: the uniform draw in
`[1, 100]` compared against the configured `recognitionSuccessRate`. -/
def shouldRecognizePlate (o : Oracle) (st : SimState) : Bool :=
  o.draw ≤ st.config.recognitionSuccessRate

/-- Embedding of `DeviceLogic._handle_get_current_log` (and of the
identical `_handle_get_log`): return the cached recognition if any,
otherwise synthesize one when the draw succeeds, else answer the
"No current recognition" domain error. -/
def handleGetCurrentLog (o : Oracle) (st : SimState) : Answer × SimState :=
  match st.store.currentRecognition with
  | some r => (.logAnswer r.anpr, st)
  | none =>
      if shouldRecognizePlate o st then
        let (ev, st₁) := generateRecognitionEvent o none st
        (.logAnswer ev.anpr, st₁)
      else (.failed "No current recognition", st)

/-- The python exceptions `_handle_set_config` can meet: `AttributeError`
(raised by `.get` on a non-dict node) is not in its `except` clause, the
other two are caught. -/
inductive PyErr where
  | attributeError
  | valueError
  | typeError
deriving DecidableEq, Repr

/-- Python `value.get(key, default)`: only dictionaries have `.get`; any
other receiver raises `AttributeError`. -/
def pyGet (v : Json) (k : String) (default : Json) : Except PyErr Json :=
  match v with
  | .obj kvs => .ok ((jLookup kvs k).getD default)
  | _ => .error .attributeError

/-- Python `value.get(key)` with no default. -/
def pyGetOpt (v : Json) (k : String) : Except PyErr (Option Json) :=
  match v with
  | .obj kvs => .ok (jLookup kvs k)
  | _ => .error .attributeError

/-- Python `int(x)`: numbers and booleans convert, strings must spell an
integer (`ValueError` otherwise), every other value is a `TypeError`. -/
def pyInt (v : Json) : Except PyErr Int :=
  match v with
  | .num n => .ok n
  | .bool b => .ok (if b then 1 else 0)
  | .str s =>
      match s.toInt? with
      | some n => .ok n
      | none => .error .valueError
  | _ => .error .typeError

/-- Embedding of `DeviceLogic._handle_set_config`: refuse when
configuration changes are disallowed or the payload dict is empty, then
walk `config → cameras → camera → anpr → @plateReliability` with defaulted
`.get` steps; `KeyError`/`ValueError`/`TypeError` is converted to a domain
error, but an `AttributeError` from a non-dict node escapes uncaught. -/
def handleSetConfig (payload : List (String × Json)) (st : SimState) :
    SimState × Except String (Option Answer × Int) :=
  if !st.store.allowSetConfig then
    (st, .ok (some (.failed "Configuration changes are not allowed"), 200))
  else if payload.isEmpty then
    (st, .ok (some (.failed "Invalid config data"), 200))
  else
    let walk : Except PyErr SimState := do
      let config := (jLookup payload "config").getD (.obj [])
      let cameras ← pyGet config "cameras" (.obj [])
      let camera ← pyGet cameras "camera" (.obj [])
      let anpr ← pyGet camera "anpr" (.obj [])
      let pr ← pyGetOpt anpr "@plateReliability"
      match pr with
      | none => pure st
      | some v => do
          let n ← pyInt v
          pure { st with config := { st.config with plateReliability := n } }
    match walk with
    | .ok st₁ => (st₁, .ok (some .success, 200))
    | .error .attributeError => (st, .error "AttributeError")
    | .error .valueError => (st, .ok (some (.failed "Invalid config format: invalid literal"), 200))
    | .error .typeError => (st, .ok (some (.failed "Invalid config format: bad type"), 200))

/-- Embedding of `DeviceLogic._handle_edit_database`: discriminated
add/delete; add always succeeds, delete of an absent plate answers
"Plate not found". -/
def handleEditDatabase (p : EditDatabasePayload) (st : SimState) :
    SimState × Except String (Option Answer × Int) :=
  match p with
  | .addPlate pm =>
      let (s₁, _) := st.store.addPlateToDatabase pm.value
      ({ st with store := s₁ }, .ok (some .success, 200))
  | .delPlate pm =>
      let (s₁, ok) := st.store.removePlateFromDatabase pm.value
      if ok then ({ st with store := s₁ }, .ok (some .success, 200))
      else ({ st with store := s₁ },
            .ok (some (.failed ("Plate not found: " ++ pm.value)), 200))

/-- Embedding of `DeviceLogic._handle_set_security`: requires the device
to be locked (a state precondition inside the handler); a password change
needs the current password to be supplied when one is stored. -/
def handleSetSecurity (cfg : SecurityConfig) (st : SimState) :
    SimState × Except String (Option Answer × Int) :=
  if !st.store.isLocked then
    (st, .ok (some (.failed "Device must be locked to change security settings"), 200))
  else
    match cfg.newLockPassword with
    | some np =>
        if st.store.lockPassword.isSome ∧ cfg.currentLockPassword = none then
          (st, .ok (some (.failed "Current password required to change lock password"), 200))
        else
          let s₁ := st.store.setLockPassword np
          let s₂ := match cfg.lockPasswordHint with
            | some h => s₁.setLockPasswordHint h
            | none => s₁
          let s₃ := match cfg.rsaHint with
            | some r => s₂.setRsaHint r
            | none => s₂
          ({ st with store := s₃ }, .ok (some .success, 200))
    | none =>
        let s₃ := match cfg.rsaHint with
          | some r => st.store.setRsaHint r
          | none => st.store
        ({ st with store := s₃ }, .ok (some .success, 200))

/-- Python dict assignment into `active_triggers`: overwrite in place or
append. -/
def insertTrigger (l : List (Int × TriggerSession)) (k : Int) (v : TriggerSession) :
    List (Int × TriggerSession) :=
  match l with
  | [] => [(k, v)]
  | (k₁, v₁) :: rest =>
      if k₁ = k then (k₁, v) :: rest else (k₁, v₁) :: insertTrigger rest k v

/-- Removal of the first trigger session whose camera id compares equal,
in insertion order (`_handle_trigger_off`). -/
def removeFirstTrigger (l : List (Int × TriggerSession)) (cid : Json) :
    Option (Int × List (Int × TriggerSession)) :=
  match l with
  | [] => none
  | (k, ts) :: rest =>
      if Json.beq ts.cameraId cid then some (k, rest)
      else
        match removeFirstTrigger rest cid with
        | some (id, rest₁) => some (id, (k, ts) :: rest₁)
        | none => none

/-- Embedding of `DeviceLogic._handle_trigger_on`: defaulted parameter
extraction, a fresh random id, session recorded; `int(...)` on a bad
`@timeout` raises out of the handler. -/
def handleTriggerOn (o : Oracle) (payload : List (String × Json)) (st : SimState) :
    SimState × Except String (Option Answer × Int) :=
  let cameraId := if payload.isEmpty then Json.str "0"
    else (jLookup payload "@cameraId").getD (Json.str "0")
  let timeoutJ := if payload.isEmpty then Json.str "1000"
    else (jLookup payload "@timeout").getD (Json.str "1000")
  match pyInt timeoutJ with
  | .error _ => (st, .error "ValueError")
  | .ok t =>
      let ts : TriggerSession := { cameraId := cameraId, timeout := t, startTime := o.wallTime }
      ({ st with activeTriggers := insertTrigger st.activeTriggers o.triggerId ts },
       .ok (some (.triggerOk o.triggerId), 200))

/-- Embedding of `DeviceLogic._handle_trigger_off`: the first session with
a matching camera id is removed and its id reported; otherwise a failed
trigger answer with id 0. -/
def handleTriggerOff (payload : List (String × Json)) (st : SimState) :
    SimState × Except String (Option Answer × Int) :=
  let cameraId := if payload.isEmpty then Json.str "0"
    else (jLookup payload "@cameraId").getD (Json.str "0")
  match removeFirstTrigger st.activeTriggers cameraId with
  | some (id, rest) =>
      ({ st with activeTriggers := rest }, .ok (some (.triggerOk id), 200))
  | none => (st, .ok (some (.triggerFailed 0), 200))

/-- The configuration tree served by `_handle_get_config`. -/
def buildConfigJson (cfg : ConfigManager) : Json :=
  .obj
    [("device", .obj [("@name", .str "Simulator Device"),
                      ("@installationHeight_cm", .str "100")]),
     ("network", .obj
        [("interface", .obj [("@ipAddress", .str cfg.ipAddress),
                             ("@ipMask", .str "255.255.255.0")]),
         ("clp", .obj [("@port", .str (toString cfg.wsPort))]),
         ("ssws", .obj [("@httpPort", .str (toString cfg.httpPort))])]),
     ("cameras", .obj
        [("camera", .obj
           [("anpr", .obj
              [("@context", .str (cfg.defaultContext ++ ">OTHERS")),
               ("@squarePlates", .str "0"),
               ("@plateReliability", .str (toString cfg.plateReliability))])])]),
     ("database", .obj [("@enabled", .str "0"), ("@openForAll", .str "0")]),
     ("io", .obj [("defaultImpulse", .obj [("@pulseMode", .str "rising"),
                                           ("@duration_ms", .str "500")])])]

/-- The empty recognition stored by `_handle_reset_engine`. -/
def emptyRecognition : AnprEvent :=
  { anpr :=
    { date := 0, id := 0, session := 0,
      decision :=
      { plate := some "", reliability := some 0, context := some "F",
        jpeg := none, reliabilityPerCharacter := none, database := none } } }

/-- Embedding of `DeviceLogic.process_message`: route the decoded message
to its handler.  The returned `Except` carries an exception escaping the
handler; the `Int` is the HTTP status code the dispatcher pairs with every
answer (always 200). -/
def processMessage (o : Oracle) (m : Msg) (st : SimState) :
    SimState × Except String (Option Answer × Int) :=
  match m with
  | .getConfig => (st, .ok (some (.configAnswer (buildConfigJson st.config)), 200))
  | .getCurrentLog _ =>
      let (a, st₁) := handleGetCurrentLog o st
      (st₁, .ok (some a, 200))
  | .getDatabase => (st, .ok (some (.databaseAnswer st.store.platesDatabase), 200))
  | .getDate => (st, .ok (some (.dateAnswer st.store.simulatedDate), 200))
  | .getImage _ => (st, .ok (some (.imageAnswer st.store.simulatedDate sampleImage), 200))
  | .getInfos => (st, .ok (some (.infosAnswer st.store.isLocked), 200))
  | .getLog _ =>
      let (a, st₁) := handleGetCurrentLog o st
      (st₁, .ok (some a, 200))
  | .getTraces => (st, .ok (some .tracesAnswer, 200))
  | .getXSD => (st, .ok (some (.xsdAnswer xsdContent), 200))
  | .openBarrier =>
      let (s₁, _) := st.store.openBarrier
      ({ st with store := s₁ }, .ok (some .success, 200))
  | .triggerOn payload => handleTriggerOn o payload st
  | .triggerOff payload => handleTriggerOff payload st
  | .lock lp =>
      let (s₁, ok) := st.store.lockDevice (some lp.password)
      if ok then ({ st with store := s₁ }, .ok (some .success, 200))
      else ({ st with store := s₁ }, .ok (some (.failed "Failed to lock device"), 200))
  | .unlock =>
      let (s₁, _) := st.store.unlockDevice
      ({ st with store := s₁ }, .ok (some .success, 200))
  | .resetConfig =>
      ({ st with config := ConfigManager.default }, .ok (some .success, 200))
  | .resetEngine =>
      ({ st with store := st.store.setCurrentRecognition emptyRecognition },
       .ok (some .success, 200))
  | .setConfig payload => handleSetConfig payload st
  | .editDatabase p => handleEditDatabase p st
  | .resetCounters => (st, .ok (some .success, 200))
  | .allowSetConfig _ =>
      ({ st with store := st.store.setAllowConfig true }, .ok (some .success, 200))
  | .forbidSetConfig _ =>
      ({ st with store := st.store.setAllowConfig false }, .ok (some .success, 200))
  | .calibrateZoomFocus _ => (st, .ok (some .success, 200))
  | .setEnableStreams cfg =>
      ({ st with store := { st.store with streamConfig := some cfg } }, .ok (none, 200))
  | .keepAlive => (st, .ok (some .success, 200))
  | .update _ => (st, .ok (some .success, 200))
  | .setup _ => (st, .ok (some .success, 200))
  | .setSecurity cfg => handleSetSecurity cfg st
  | .testFTP cfg =>
      if cfg.address = "" then (st, .ok (some (.failed "FTP server address is required"), 200))
      else (st, .ok (some .success, 200))
  | .testNTP cfg =>
      if cfg.host = "" then (st, .ok (some (.failed "NTP server host is required"), 200))
      else (st, .ok (some .success, 200))
  | .updateWebFirmware cfg =>
      if cfg.url = "" then (st, .ok (some (.failed "Firmware URL is required"), 200))
      else (st, .ok (some .success, 200))
  | .eraseDatabase =>
      if !st.store.isLocked then
        (st, .ok (some (.failed "Device must be locked to erase database"), 200))
      else
        let (s₁, _) := st.store.clearDatabase
        ({ st with store := s₁ }, .ok (some .success, 200))
  | .reboot =>
      if !st.store.isLocked then
        (st, .ok (some (.failed "Device must be locked to reboot"), 200))
      else
        ({ st with store := st.store.simulateReboot }, .ok (some .success, 200))

/-- Embedding of `DeviceLogic.process_websocket_message`: parse, then
dispatch through `processMessage` with no lock-requirement check of any
kind; `setEnableStreams` is short-circuited to its handler.  A parse
failure or escaped exception is the `Except.error` case (the WebSocket
server turns it into an error frame). -/
def processWebsocketMessage (o : Oracle) (raw : Json) (st : SimState) :
    SimState × Except String (Option Answer) :=
  match parseMessage raw with
  | none => (st, .error "ValidationError")
  | some m =>
      match m with
      | .setEnableStreams cfg =>
          ({ st with store := { st.store with streamConfig := some cfg } }, .ok none)
      | m₁ =>
          let (st₁, r) := processMessage o m₁ st
          match r with
          | .ok (ans, code) =>
              if code ≠ 200 then (st₁, .error "Error processing message")
              else (st₁, .ok ans)
          | .error e => (st₁, .error e)

/-- Outcome of one HTTP `/sync` request as seen by the client:
`send_error`, a JSON response, or a traceback from an uncaught handler
exception (HTTP 500 machinery). -/
inductive HttpOutcome where
  | sendError (code : Int) (text : String)
  | response (code : Int) (body : Option Answer)
  | uncaught (e : String)

/-- Embedding of `SurvisionHTTPHandler._implicit_lock`: fail if the device
is already locked, otherwise attempt `lock_device` with the header
password. -/
def implicitLock (password : Option String) (st : SimState) : SimState × Bool :=
  if st.store.isLocked then (st, false)
  else
    let (s₁, ok) := st.store.lockDevice password
    ({ st with store := s₁ }, ok)

/-- Embedding of `SurvisionHTTPHandler._implicit_unlock`. -/
def implicitUnlock (st : SimState) : SimState :=
  { st with store := (st.store.unlockDevice).1 }

/-- Embedding of `SurvisionHTTPHandler._handle_sync_request`: parse (400 on
failure), reject `prohibitedOverHTTP` (400), implicitly lock for
`requiresLocking` messages (403 when the attempt fails), dispatch, and in
all cases unlock in the `finally` block when the implicit lock was taken —
also when the handler raised. -/
def handleSyncRequest (o : Oracle) (raw : Json) (password : Option String)
    (st : SimState) : HttpOutcome × SimState :=
  match parseMessage raw with
  | none => (.sendError 400 "ValidationError", st)
  | some m =>
      if m.prohibitedOverHTTP then
        (.sendError 400 "Operation is prohibited over HTTP", st)
      else if m.requiresLocking then
        let (st₁, locked) := implicitLock password st
        if !locked then
          (.sendError 403 "Device is locked or invalid password", st₁)
        else
          let (st₂, r) := processMessage o m st₁
          let st₃ := implicitUnlock st₂
          match r with
          | .ok (body, code) => (.response code body, st₃)
          | .error e => (.uncaught e, st₃)
      else
        let (st₂, r) := processMessage o m st
        match r with
        | .ok (body, code) => (.response code body, st₂)
        | .error e => (.uncaught e, st₂)

/-- The suffix of the most recent 100 entries. -/
def lastHundred (l : List Event) : List Event :=
  l.drop (l.length - 100)

lemma lastHundred_of_le (l : List Event) (h : l.length ≤ 100) : lastHundred l = l := by
  unfold lastHundred
  have h₀ : l.length - 100 = 0 := by omega
  simp [h₀]

lemma length_lastHundred (l : List Event) : (lastHundred l).length = min l.length 100 := by
  unfold lastHundred
  rw [List.length_drop]
  omega

lemma addEventLog_eq_lastHundred (log : List Event) (e : Event) :
    addEventLog log e = lastHundred (log ++ [e]) := by
  unfold addEventLog lastHundred
  rcases le_or_lt (log ++ [e]).length 100 with h | h
  · rw [if_neg (by omega)]
    have h₀ : (log ++ [e]).length - 100 = 0 := by omega
    rw [h₀, List.drop_zero]
  · rw [if_pos (by omega)]

lemma lastHundred_append_of_le (xs ys : List Event) (h : 100 ≤ ys.length) :
    lastHundred (xs ++ ys) = lastHundred ys := by
  unfold lastHundred
  rw [List.length_append, List.drop_append_eq_append_drop,
      List.drop_eq_nil_of_le (by omega)]
  rw [List.nil_append]
  congr 1
  omega

lemma lastHundred_lastHundred_append (xs ys : List Event) :
    lastHundred (lastHundred xs ++ ys) = lastHundred (xs ++ ys) := by
  rcases le_or_lt xs.length 100 with h | h
  · rw [lastHundred_of_le xs h]
  · have hlen : (xs.drop (xs.length - 100)).length = 100 := by
      rw [List.length_drop]; omega
    have h₂ : lastHundred (xs ++ ys) = lastHundred (xs.drop (xs.length - 100) ++ ys) := by
      conv_lhs => rw [← List.take_append_drop (xs.length - 100) xs]
      rw [List.append_assoc]
      exact lastHundred_append_of_le _ _ (by rw [List.length_append, hlen]; omega)
    rw [h₂]
    rfl

lemma foldl_addEventLog (events : List Event) :
    ∀ log : List Event, log.length ≤ 100 →
      List.foldl addEventLog log events = lastHundred (log ++ events) := by
  induction events with
  | nil =>
      intro log h
      rw [List.foldl_nil, List.append_nil, lastHundred_of_le log h]
  | cons e es ih =>
      intro log h
      have hlen : (addEventLog log e).length ≤ 100 := by
        rw [addEventLog_eq_lastHundred]
        have := length_lastHundred (log ++ [e])
        omega
      rw [List.foldl_cons, ih _ hlen, addEventLog_eq_lastHundred,
          lastHundred_lastHundred_append, List.append_assoc, List.singleton_append]

/-- A fixed oracle for concrete executions. -/
def oracle0 : Oracle where
  draw := 50
  plateChoice := "XX 000 XX"
  now := 0
  triggerId := 1
  wallTime := 0

/-- The wire form of `editDatabase`/`addPlate` for the plate AB123CD. -/
def rawEditDbAdd : Json :=
  .obj [("editDatabase", .obj [("addPlate", .obj [("@value", .str "AB123CD")])])]

lemma length_addEventLog_le (log : List Event) (e : Event) (_h : log.length ≤ 100) :
    (addEventLog log e).length ≤ 100 := by
  rw [addEventLog_eq_lastHundred]
  have := length_lastHundred (log ++ [e])
  omega

lemma lockDevice_fst_of_failed (s : DataStore) (pw : Option String)
    (h : (s.lockDevice pw).2 = false) : (s.lockDevice pw).1 = s := by
  unfold DataStore.lockDevice at h ⊢
  rcases hlp : s.lockPassword with _ | stored
  · simp only [hlp] at h
    exact Bool.noConfusion h
  · simp only [hlp] at h ⊢
    by_cases hpw : pw = some stored
    · rw [if_pos hpw] at h
      exact Bool.noConfusion h
    · rw [if_neg hpw]

lemma handleGetCurrentLog_none (o : Oracle) (st : SimState)
    (hnone : st.store.currentRecognition = none) :
    handleGetCurrentLog o st =
      if o.draw ≤ st.config.recognitionSuccessRate then
        (.logAnswer (generateRecognitionEvent o none st).1.anpr,
         (generateRecognitionEvent o none st).2)
      else (.failed "No current recognition", st) := by
  unfold handleGetCurrentLog
  rw [hnone]
  simp only [shouldRecognizePlate]
  by_cases hd : o.draw ≤ st.config.recognitionSuccessRate
  · simp [hd]
  · simp [hd]

/-- C1: over the WebSocket transport a `requiresLocking` message reaching
an unlocked device is *not* rejected with an AuthorizationError: the
dispatcher performs no lock check at all, the handler runs and mutates the
store (here `editDatabase`/`addPlate` inserts the plate and answers ok).
This evaluates the code at the failing input of the claim. -/
theorem c1_ws_requiresLocking_dispatched_unlocked :
    (SimState.init 0).store.isLocked = false ∧
    parseMessage rawEditDbAdd = some (.editDatabase (.addPlate { value := "AB123CD" })) ∧
    (Msg.editDatabase (.addPlate { value := "AB123CD" })).requiresLocking = true ∧
    (processWebsocketMessage oracle0 rawEditDbAdd (SimState.init 0)).2 = .ok (some .success) ∧
    ((processWebsocketMessage oracle0 rawEditDbAdd (SimState.init 0)).1).store.platesDatabase
      = ["AB123CD"] :=
  ⟨rfl, rfl, rfl, rfl, rfl⟩

/-- C2 (amended): an HTTP request carrying a `requiresLocking` message is
rejected with 403 and dispatches nothing when the device is already locked
*or* when the implicit lock attempt with the header password fails; when
the attempt succeeds, the request dispatches on the locked state and the
adapter unconditionally unlocks afterwards, so the locked flag is false
after every completed request that performed the implicit lock. -/
theorem http_implicit_lock_bracket :
    ∀ (o : Oracle) (raw : Json) (pw : Option String) (st : SimState) (m : Msg),
      parseMessage raw = some m → m.requiresLocking = true →
      m.prohibitedOverHTTP = false →
      ((st.store.isLocked = true →
          handleSyncRequest o raw pw st =
            (.sendError 403 "Device is locked or invalid password", st)) ∧
       (st.store.isLocked = false → (st.store.lockDevice pw).2 = false →
          handleSyncRequest o raw pw st =
            (.sendError 403 "Device is locked or invalid password", st)) ∧
       (st.store.isLocked = false → (st.store.lockDevice pw).2 = true →
          (handleSyncRequest o raw pw st).2 =
            implicitUnlock (processMessage o m (implicitLock pw st).1).1 ∧
          (handleSyncRequest o raw pw st).2.store.isLocked = false)) := by
  intro o raw pw st m hp hreq hproh
  unfold handleSyncRequest
  rw [hp]
  simp only [hreq, hproh, Bool.false_eq_true, if_false, if_true]
  refine ⟨?_, ?_, ?_⟩
  · intro hLocked
    unfold implicitLock
    rw [hLocked]
    simp
  · intro hUnlocked hFail
    unfold implicitLock
    rw [hUnlocked]
    simp only [Bool.false_eq_true, if_false, hFail,
               lockDevice_fst_of_failed st.store pw hFail,
               Bool.not_false, if_true]
  · intro hUnlocked hOk
    unfold implicitLock
    rw [hUnlocked]
    simp only [Bool.false_eq_true, if_false, hOk, Bool.not_true, if_true]
    rcases hr : processMessage o m { st with store := (st.store.lockDevice pw).1 } with ⟨st₂, r⟩
    cases r with
    | ok v =>
        rcases v with ⟨body, code⟩
        exact ⟨rfl, rfl⟩
    | error e =>
        exact ⟨rfl, rfl⟩

/-- Store carrying a stored lock password while unlocked. -/
def stWithPw : SimState :=
  { SimState.init 0 with store := { DataStore.init 0 with lockPassword := some "abc" } }

/-- C2 counterexample: with a stored lock password and a missing header
password, a request carrying a `requiresLocking` message reaches an
*unlocked* device and is still answered 403 without any dispatch — against
the claim that every not-already-locked request is locked and dispatched. -/
theorem http_unlocked_wrong_password_403 :
    stWithPw.store.isLocked = false ∧
    parseMessage rawEditDbAdd = some (.editDatabase (.addPlate { value := "AB123CD" })) ∧
    handleSyncRequest oracle0 rawEditDbAdd none stWithPw =
      (.sendError 403 "Device is locked or invalid password", stWithPw) :=
  ⟨rfl, rfl, rfl⟩

/-- C2 witness: on a fresh device with no stored password the implicit
lock succeeds and the request leaves the device unlocked. -/
theorem http_implicit_lock_bracket_witness :
    (handleSyncRequest oracle0 rawEditDbAdd none (SimState.init 0)).2.store.isLocked = false :=
  ((http_implicit_lock_bracket oracle0 rawEditDbAdd none (SimState.init 0)
      (.editDatabase (.addPlate { value := "AB123CD" })) rfl rfl rfl).2.2 rfl rfl).2

/-- C3 (amended): decoding does not enforce the one-recognized-key rule:
unknown keys are ignored and all-default variants validate, so every JSON
object whose `getConfig` key is absent or null decodes successfully —
whatever its recognized-key count. -/
theorem parse_ignores_key_count :
    ∀ (kvs : List (String × Json)),
      jLookup kvs "getConfig" = none ∨ jLookup kvs "getConfig" = some .null →
      (parseMessage (.obj kvs)).isSome = true := by
  intro kvs h
  show (match passPresent kvs with
        | some m => some m
        | none => passAbsent kvs).isSome = true
  rcases hP : passPresent kvs with _ | m
  · rcases h with h | h
    · show (passAbsent kvs).isSome = true
      simp [passAbsent, ifAbsent, firstValid, tryGetConfig, vNullDefault, h]
    · simp [passPresent, ifPresent, tryGetConfig, vNullDefault, h, firstValid] at hP
  · rfl

/-- C3 counterexample: the empty object has zero recognized keys and still
decodes (as the all-default `getConfig` variant), where the claim requires
a ValidationError. -/
theorem parse_empty_object_succeeds :
    recognizedKeyCount [] = 0 ∧
    parseMessage (Json.obj []) = some Msg.getConfig :=
  ⟨rfl, rfl⟩

/-- C3 witness: an object with two recognized keys decodes successfully. -/
theorem parse_ignores_key_count_witness :
    (parseMessage (Json.obj [("unlock", Json.null), ("reboot", Json.null)])).isSome = true :=
  parse_ignores_key_count [("unlock", Json.null), ("reboot", Json.null)] (Or.inl rfl)

/-- C4: the bounded event log: appending keeps length at most 100, any
append sequence of at least 100 events leaves exactly the most recent 100
in their original relative order, and every store operation that logs
(barrier, database, recognition, security, reboot) preserves the bound. -/
theorem eventLog_bounded_fifo :
    (∀ (log : List Event) (e : Event), log.length ≤ 100 →
       (addEventLog log e).length ≤ 100) ∧
    (∀ (log events : List Event), log.length ≤ 100 → 100 ≤ events.length →
       List.foldl addEventLog log events = events.drop (events.length - 100)) ∧
    (∀ (s : DataStore) (p : String) (r : AnprEvent) (pw hint : String),
       s.eventLog.length ≤ 100 →
       ((s.openBarrier).1.eventLog.length ≤ 100 ∧
        (s.closeBarrier).1.eventLog.length ≤ 100 ∧
        (s.addPlateToDatabase p).1.eventLog.length ≤ 100 ∧
        (s.removePlateFromDatabase p).1.eventLog.length ≤ 100 ∧
        (s.clearDatabase).1.eventLog.length ≤ 100 ∧
        (s.setCurrentRecognition r).eventLog.length ≤ 100 ∧
        (s.setLockPassword pw).eventLog.length ≤ 100 ∧
        (s.setRsaHint hint).eventLog.length ≤ 100 ∧
        (s.simulateReboot).eventLog.length ≤ 100)) := by
  refine ⟨length_addEventLog_le, ?_, ?_⟩
  · intro log events h hev
    rw [foldl_addEventLog events log h, lastHundred_append_of_le _ _ hev]
    rfl
  · intro s p r pw hint h
    refine ⟨length_addEventLog_le _ _ h, length_addEventLog_le _ _ h,
            length_addEventLog_le _ _ h, ?_, length_addEventLog_le _ _ h,
            length_addEventLog_le _ _ h, length_addEventLog_le _ _ h,
            length_addEventLog_le _ _ h, length_addEventLog_le _ _ h⟩
    unfold DataStore.removePlateFromDatabase
    by_cases hm : p ∈ s.platesDatabase
    · rw [if_pos hm]
      exact length_addEventLog_le _ _ h
    · rw [if_neg hm]
      exact h

/-- C4 witness: concrete instances of the three conjuncts, at a full log,
at a 150-event insertion and at a fresh store. -/
theorem eventLog_bounded_fifo_witness :
    (addEventLog (List.replicate 100 (Event.reboot 0)) (Event.reboot 0)).length ≤ 100 ∧
    List.foldl addEventLog [] (List.replicate 150 (Event.reboot 0)) =
      (List.replicate 150 (Event.reboot 0)).drop
        ((List.replicate 150 (Event.reboot 0)).length - 100) ∧
    ((DataStore.init 0).openBarrier).1.eventLog.length ≤ 100 :=
  ⟨eventLog_bounded_fifo.1 _ _ (by simp),
   eventLog_bounded_fifo.2.1 _ _ (by simp) (by simp),
   (eventLog_bounded_fifo.2.2 (DataStore.init 0) "P" emptyRecognition "pw" "h"
      (by simp [DataStore.init])).1⟩

/-- C5: `lock_device` succeeds and locks exactly when no password is
stored or the supplied one equals it (idempotently), fails without
mutation otherwise, and `unlock_device` is unconditional. -/
theorem lock_unlock_semantics :
    ∀ (s : DataStore) (pw : Option String),
      ((s.lockPassword = none ∨ pw = s.lockPassword) →
         s.lockDevice pw = ({ s with isLocked := true }, true)) ∧
      ((s.lockPassword ≠ none ∧ pw ≠ s.lockPassword) →
         s.lockDevice pw = (s, false)) ∧
      s.unlockDevice = ({ s with isLocked := false }, true) := by
  intro s pw
  refine ⟨?_, ?_, rfl⟩
  · intro h
    unfold DataStore.lockDevice
    rcases hlp : s.lockPassword with _ | stored
    · simp only [hlp]
    · simp only [hlp]
      rcases h with h | h
      · rw [hlp] at h
        exact Option.noConfusion h
      · rw [hlp] at h
        rw [if_pos h]
  · intro h
    unfold DataStore.lockDevice
    rcases hlp : s.lockPassword with _ | stored
    · exact absurd hlp h.1
    · simp only [hlp]
      rw [hlp] at h
      rw [if_neg h.2]

/-- C5 witness: locking with no stored password reports success and locks;
a wrong password fails without mutation. -/
theorem lock_unlock_semantics_witness :
    (DataStore.init 0).lockDevice (some "abc")
      = ({ DataStore.init 0 with isLocked := true }, true) ∧
    ({ DataStore.init 0 with lockPassword := some "abc" } : DataStore).lockDevice (some "x")
      = ({ DataStore.init 0 with lockPassword := some "abc" }, false) :=
  ⟨(lock_unlock_semantics (DataStore.init 0) (some "abc")).1 (Or.inl rfl),
   (lock_unlock_semantics { DataStore.init 0 with lockPassword := some "abc" }
      (some "x")).2.1 (by refine ⟨?_, ?_⟩ <;> decide)⟩

/-- C6: the plate database behaves as a set: a duplicate add leaves
exactly one member, removing an absent plate fails with no mutation and
no log entry, removing a present plate erases it and logs the removal. -/
theorem plate_database_set_semantics :
    ∀ (s : DataStore) (p : String),
      (p ∉ s.platesDatabase → s.removePlateFromDatabase p = (s, false)) ∧
      (p ∈ s.platesDatabase →
         s.removePlateFromDatabase p =
           ({ s with platesDatabase := s.platesDatabase.erase p,
                     eventLog := addEventLog s.eventLog
                       (.database "remove" (some p) s.simulatedDate) }, true)) ∧
      (s.platesDatabase.Nodup →
         ((s.addPlateToDatabase p).1.addPlateToDatabase p).1.platesDatabase.count p = 1 ∧
         ((s.addPlateToDatabase p).1.addPlateToDatabase p).1.platesDatabase.Nodup) := by
  intro s p
  refine ⟨?_, ?_, ?_⟩
  · intro h
    unfold DataStore.removePlateFromDatabase
    rw [if_neg h]
  · intro h
    unfold DataStore.removePlateFromDatabase
    rw [if_pos h]
  · intro hnd
    have hplates : ((s.addPlateToDatabase p).1.addPlateToDatabase p).1.platesDatabase
        = (s.platesDatabase.insert p).insert p := rfl
    have h₁ : (s.platesDatabase.insert p).Nodup := hnd.insert
    have hmem : p ∈ s.platesDatabase.insert p := List.mem_insert_self p _
    have h₂ : (s.platesDatabase.insert p).insert p = s.platesDatabase.insert p :=
      List.insert_of_mem hmem
    rw [hplates, h₂]
    exact ⟨List.count_eq_one_of_mem h₁ hmem, h₁⟩

/-- C6 witness: adding AB123CD twice to an empty database leaves one
member; deleting an absent plate fails and mutates nothing. -/
theorem plate_database_set_semantics_witness :
    (((DataStore.init 0).addPlateToDatabase "AB123CD").1.addPlateToDatabase
        "AB123CD").1.platesDatabase.count "AB123CD" = 1 ∧
    (DataStore.init 0).removePlateFromDatabase "ZZ999ZZ" = (DataStore.init 0, false) :=
  ⟨((plate_database_set_semantics (DataStore.init 0) "AB123CD").2.2 (by decide)).1,
   (plate_database_set_semantics (DataStore.init 0) "ZZ999ZZ").1 (by decide)⟩

/-- C7: `simulate_reboot` clears the lock, the barrier and the current
recognition, appends a Reboot entry, and preserves the plate database,
the configuration flag and the password material; the `reboot` handler on
a locked device performs exactly this store transition and preserves the
configuration manager. -/
theorem reboot_resets_and_preserves :
    (∀ (s : DataStore),
       s.simulateReboot =
         { s with isLocked := false, barrierOpen := false,
                  currentRecognition := none,
                  eventLog := addEventLog s.eventLog (.reboot s.simulatedDate) } ∧
       s.simulateReboot.platesDatabase = s.platesDatabase ∧
       s.simulateReboot.allowSetConfig = s.allowSetConfig ∧
       s.simulateReboot.lockPassword = s.lockPassword ∧
       s.simulateReboot.lockPasswordHint = s.lockPasswordHint ∧
       s.simulateReboot.rsaHint = s.rsaHint) ∧
    (∀ (o : Oracle) (st : SimState), st.store.isLocked = true →
       processMessage o .reboot st =
         ({ st with store := st.store.simulateReboot }, .ok (some .success, 200))) := by
  refine ⟨fun s => ⟨rfl, rfl, rfl, rfl, rfl, rfl⟩, ?_⟩
  intro o st h
  unfold processMessage
  rw [h]
  rfl

/-- Fresh state whose device is locked. -/
def stLocked : SimState :=
  { SimState.init 0 with store := { DataStore.init 0 with isLocked := true } }

/-- C7 witness: the reboot handler on a locked fresh device. -/
theorem reboot_resets_and_preserves_witness :
    processMessage oracle0 .reboot stLocked =
      ({ stLocked with store := stLocked.store.simulateReboot }, .ok (some .success, 200)) :=
  reboot_resets_and_preserves.2 oracle0 stLocked rfl

/-- Fresh state with no cached recognition and a success rate of 100. -/
def stRate100 : SimState :=
  { SimState.init 0 with config := { ConfigManager.default with recognitionSuccessRate := 100 } }

/-- C8: with no cached recognition, `getCurrentLog` synthesizes and stores
an event exactly when the uniform draw in [1,100] is at most the
configured success rate — hence never answers "No current recognition" at
rate 100 and always does at rate 0 — and the synthesized decision carries
a distance-0 database match exactly when the plate is in the database. -/
theorem getCurrentLog_probability_and_match :
    ∀ (o : Oracle) (st : SimState),
      st.store.currentRecognition = none → 1 ≤ o.draw → o.draw ≤ 100 →
      ((st.config.recognitionSuccessRate = 100 →
          (handleGetCurrentLog o st).1 ≠ Answer.failed "No current recognition") ∧
       (st.config.recognitionSuccessRate = 0 →
          handleGetCurrentLog o st = (Answer.failed "No current recognition", st)) ∧
       ((handleGetCurrentLog o st).2.store.currentRecognition.isSome = true ↔
          o.draw ≤ st.config.recognitionSuccessRate) ∧
       (o.draw ≤ st.config.recognitionSuccessRate →
          (handleGetCurrentLog o st).1 =
            Answer.logAnswer (generateRecognitionEvent o none st).1.anpr ∧
          (generateRecognitionEvent o none st).1.anpr.decision.database =
            (if o.plateChoice ∈ st.store.platesDatabase then
               some { plate := o.plateChoice, distance := some 0 }
             else none))) := by
  intro o st hnone h₁ h₁₀₀
  have hmain := handleGetCurrentLog_none o st hnone
  by_cases hd : o.draw ≤ st.config.recognitionSuccessRate
  · rw [if_pos hd] at hmain
    refine ⟨?_, ?_, ?_, ?_⟩
    · intro _
      rw [hmain]
      exact fun hc => Answer.noConfusion hc
    · intro h₀
      rw [h₀] at hd
      omega
    · rw [hmain]
      simp only [generateRecognitionEvent, DataStore.setCurrentRecognition,
                 Option.isSome_some, true_iff]
      exact hd
    · intro _
      rw [hmain]
      exact ⟨rfl, rfl⟩
  · rw [if_neg hd] at hmain
    refine ⟨?_, ?_, ?_, ?_⟩
    · intro h₁₀₀r
      rw [h₁₀₀r] at hd
      omega
    · intro _
      exact hmain
    · rw [hmain]
      simp only [hnone, Option.isSome_none, Bool.false_eq_true, false_iff]
      exact hd
    · intro hdd
      exact absurd hdd hd

/-- C8 witness: at rate 100 a draw of 50 never yields the no-recognition
error. -/
theorem getCurrentLog_probability_and_match_witness :
    (handleGetCurrentLog oracle0 stRate100).1 ≠ Answer.failed "No current recognition" :=
  (getCurrentLog_probability_and_match oracle0 stRate100 rfl (by decide) (by decide)).1 rfl

/-- C9: `_handle_set_config` on a non-dict `config` node: with
configuration allowed, the payload `config: "x"` makes the nested `.get`
walk raise an `AttributeError` that the handler's except clause does not
catch — the exception escapes instead of producing a DomainError answer. -/
theorem setConfig_nondict_uncaught :
    (SimState.init 0).store.allowSetConfig = true ∧
    processMessage oracle0 (.setConfig [("config", Json.str "x")]) (SimState.init 0)
      = (SimState.init 0, .error "AttributeError") :=
  ⟨rfl, rfl⟩

/-- C10 (amended): `add_plate_to_database` always reports success and
always appends a Database(add) entry, trimming to the last 100; below the
bound the log strictly grows by that entry. -/
theorem addPlate_always_logs :
    ∀ (s : DataStore) (p : String),
      (s.addPlateToDatabase p).2 = true ∧
      (s.addPlateToDatabase p).1 =
        { s with platesDatabase := s.platesDatabase.insert p,
                 eventLog := addEventLog s.eventLog
                   (.database "add" (some p) s.simulatedDate) } ∧
      (s.eventLog.length < 100 →
         (s.addPlateToDatabase p).1.eventLog =
           s.eventLog ++ [.database "add" (some p) s.simulatedDate]) := by
  intro s p
  refine ⟨rfl, rfl, ?_⟩
  intro h
  show addEventLog s.eventLog _ = _
  unfold addEventLog
  rw [if_neg (by rw [List.length_append]; simp; omega)]

/-- Store already holding 100 identical Database(add) entries for the
plate P at the unchanged simulated date. -/
def storeFullDup : DataStore :=
  { DataStore.init 0 with
      platesDatabase := ["P"],
      eventLog := List.replicate 100 (Event.database "add" (some "P") 0) }

/-- C10 counterexample: adding the already-present plate P to
`storeFullDup` appends an entry equal to all 100 existing ones and drops
the oldest, leaving the *whole* store state unchanged — against the
claim that a duplicate add never leaves the state unchanged. -/
theorem addPlate_duplicate_fixpoint :
    "P" ∈ storeFullDup.platesDatabase ∧
    storeFullDup.addPlateToDatabase "P" = (storeFullDup, true) :=
  ⟨by decide, by decide⟩

/-- C10 witness: adding a plate to a fresh store logs the Database(add)
entry and reports success. -/
theorem addPlate_always_logs_witness :
    ((DataStore.init 0).addPlateToDatabase "AB123CD").2 = true ∧
    ((DataStore.init 0).addPlateToDatabase "AB123CD").1.eventLog =
      (DataStore.init 0).eventLog ++ [.database "add" (some "AB123CD") 0] :=
  ⟨(addPlate_always_logs (DataStore.init 0) "AB123CD").1,
   (addPlate_always_logs (DataStore.init 0) "AB123CD").2.2 (by decide)⟩

end SurvisionSim
